import Mathlib

/-!
Verification development for the comparison-plot orchestration core of
`genesis/utils/pipeline/viz/comparison.py` (repository `uclales-extractor`).

The Python module defines a luigi task `ComparisonPlot` that

  * resolves a task class from a dotted `base_class` string
    (`_get_task_class`, using `str.rfind(".")` and slicing),
  * declares its dependencies by shallow-merging a global parameter dict
    with each per-variant parameter dict (`requires`),
  * dispatches on the resolved task class to a registered plot routine
    (`run`, raising `NotImplementedError` for unregistered classes),
  * renders a figure (`_scales_dist_2d`, `_apply_plot_parameters_to_axis`,
    `_generate_title_from_global_parameters`) and writes it with
    `plt.savefig(self.output().fn, ...)`,
  * names its artifact `f"{self.name}.png"` (`output`).

Everything below is a shallow embedding of those functions.  Python dicts
are modelled as association lists with unique keys in insertion order;
errors raised by `run` are modelled with an explicit `Except`; the file
system is a map from path to a three-valued file state so that the
all-or-nothing write property can be stated.  The luigi scheduler that
drives the task (`materialize` in the specification's vocabulary) is not
part of the repository sources; it is modelled from the spec where needed
and marked as such.
-/

namespace Genesis

/-- Python values as they occur in the parameter mappings handled by
`ComparisonPlot`: scalars, lists and string-keyed dicts. -/
inductive PyValue where
  | int (n : Int)
  | str (s : String)
  | bool (b : Bool)
  | none
  | list (xs : List PyValue)
  | dict (xs : List (String × PyValue))

/-- Python dict with string keys, modelled as an association list whose
keys are unique and kept in insertion order (as CPython guarantees). -/
abbrev PyDict := List (String × PyValue)

/-- Python `d.get(k)` and `d[k]` lookup on the association-list model of a
dict: the binding of the first matching key, `none` when absent. -/
def pyGet : PyDict → String → Option PyValue
  | [], _ => Option.none
  | (k₂, v) :: d, k => if k₂ = k then some v else pyGet d k

/-- Python `d[k] = v`: replace the binding in place when the key exists,
append it otherwise (CPython keeps the original insertion position). -/
def pySet : PyDict → String → PyValue → PyDict
  | [], k, v => [(k, v)]
  | (k₂, w) :: d, k, v =>
      if k₂ = k then (k₂, v) :: d else (k₂, w) :: pySet d k v

/-- Python `d.update(e)`: assign every binding of `e` into `d`, in `e`'s
iteration order. -/
def pyUpdate (d e : PyDict) : PyDict :=
  e.foldl (fun acc kv => pySet acc kv.1 kv.2) d

/-- The parameter resolution performed inline in `ComparisonPlot.requires`:
`task_parameters = dict(self.global_parameters)` followed by
`task_parameters.update(parameter_set)` — a shallow merge in which the
variant's keys override the global ones. -/
def resolveParameters (global_parameters variant_parameters : PyDict) : PyDict :=
  pyUpdate global_parameters variant_parameters

/-- A dict model is well-formed when its keys are pairwise distinct, as the
keys of every real Python dict are. -/
def NodupKeys (d : PyDict) : Prop := (d.map Prod.fst).Nodup

instance (d : PyDict) : Decidable (NodupKeys d) := by
  unfold NodupKeys; infer_instance

theorem nodupKeys_cons {kv : String × PyValue} {d : PyDict}
    (h : NodupKeys (kv :: d)) : kv.1 ∉ d.map Prod.fst ∧ NodupKeys d := by
  unfold NodupKeys at *
  rw [List.map_cons] at h
  exact List.nodup_cons.mp h

theorem pyGet_eq_none_of_not_mem {d : PyDict} {k : String}
    (h : k ∉ d.map Prod.fst) : pyGet d k = Option.none := by
  induction d with
  | nil => rfl
  | cons kv d ih =>
      simp only [List.map_cons, List.mem_cons] at h
      push_neg at h
      simp only [pyGet]
      rw [if_neg (fun hh => h.1 hh.symm)]
      exact ih h.2

theorem pyGet_pySet (d : PyDict) (k k' : String) (v : PyValue) :
    pyGet (pySet d k v) k' = if k = k' then some v else pyGet d k' := by
  induction d with
  | nil =>
      simp only [pySet, pyGet]
  | cons kv d ih =>
      obtain ⟨k₂, w⟩ := kv
      simp only [pySet]
      by_cases h₂ : k₂ = k
      · subst h₂
        simp only [if_pos rfl, pyGet]
        by_cases h' : k₂ = k'
        · subst h'; simp
        · simp [h']
      · rw [if_neg h₂]
        simp only [pyGet, ih]
        by_cases h' : k₂ = k'
        · subst h'
          have : ¬ k = k₂ := fun h => h₂ h.symm
          simp [this]
        · simp [h']

theorem pyGet_pyUpdate (d e : PyDict) (he : NodupKeys e) (k : String) :
    pyGet (pyUpdate d e) k = (pyGet e k).or (pyGet d k) := by
  induction e generalizing d with
  | nil => simp [pyUpdate, pyGet, Option.or]
  | cons kv e ih =>
      obtain ⟨k₁, v⟩ := kv
      have hk₁ : k₁ ∉ e.map Prod.fst := (nodupKeys_cons he).1
      have he' : NodupKeys e := (nodupKeys_cons he).2
      simp only [pyUpdate, List.foldl_cons] at *
      rw [ih (pySet d k₁ v) he']
      rw [pyGet_pySet]
      by_cases h : k₁ = k
      · subst h
        rw [pyGet_eq_none_of_not_mem hk₁]
        simp [pyGet, Option.or]
      · simp [pyGet, h, Option.or]

theorem nodupKeys_of_perm {d e : PyDict} (h : d.Perm e) (hd : NodupKeys d) :
    NodupKeys e :=
  (h.map Prod.fst).nodup_iff.mp hd

theorem pyGet_eq_of_perm {d e : PyDict} (hd : NodupKeys d) (h : d.Perm e)
    (k : String) : pyGet d k = pyGet e k := by
  induction h with
  | nil => rfl
  | cons x h ih =>
      have hd' := (nodupKeys_cons hd).2
      simp only [pyGet, ih hd']
  | swap x y l =>
      obtain ⟨kx, vx⟩ := x
      obtain ⟨ky, vy⟩ := y
      have hxy : kx ≠ ky := by
        have h1 := (nodupKeys_cons hd).1
        simp only [List.map_cons, List.mem_cons] at h1
        push_neg at h1
        exact fun h => h1.1 h.symm
      simp only [pyGet]
      by_cases h₁ : ky = k
      · subst h₁
        simp [hxy]
      · by_cases h₂ : kx = k
        · subst h₂; simp [h₁]
        · simp [h₁, h₂]
  | trans h₁ h₂ ih₁ ih₂ =>
      have hmid := nodupKeys_of_perm h₁ hd
      exact (ih₁ hd).trans (ih₂ hmid)

/-- C4: the resolved parameter set handed to a dependency task constructor
is the shallow merge of the global and the variant mapping: a key present
in both takes the variant's value, keys present in only one mapping pass
through unchanged (unknown keys included), the result is independent of
the iteration order of the inputs, and the two concrete examples of the
spec hold literally. -/
theorem resolveParameters_shallow_merge :
    (∀ g v : PyDict, ∀ k : String, NodupKeys v →
        pyGet (resolveParameters g v) k = (pyGet v k).or (pyGet g k))
    ∧ (∀ g g' v v' : PyDict, ∀ k : String, NodupKeys g → NodupKeys v →
        g.Perm g' → v.Perm v' →
        pyGet (resolveParameters g v) k = pyGet (resolveParameters g' v') k)
    ∧ resolveParameters [("a", PyValue.int 1), ("b", PyValue.int 2)]
        [("b", PyValue.int 3)]
        = [("a", PyValue.int 1), ("b", PyValue.int 3)]
    ∧ resolveParameters [] [("x", PyValue.int 5)] = [("x", PyValue.int 5)] := by
  refine ⟨?_, ?_, rfl, rfl⟩
  · intro g v k hv
    exact pyGet_pyUpdate g v hv k
  · intro g g' v v' k hg hv hgp hvp
    have hv' : NodupKeys v' := nodupKeys_of_perm hvp hv
    unfold resolveParameters
    rw [pyGet_pyUpdate g v hv k, pyGet_pyUpdate g' v' hv' k,
      pyGet_eq_of_perm hv hvp k, pyGet_eq_of_perm hg hgp k]

/-- Witness for `resolveParameters_shallow_merge` at concrete inputs. -/
theorem resolveParameters_shallow_merge_witness :
    pyGet (resolveParameters [("a", PyValue.int 1)] [("a", PyValue.int 7)]) "a"
      = (pyGet [("a", PyValue.int 7)] "a").or (pyGet [("a", PyValue.int 1)] "a")
    ∧ pyGet (resolveParameters [("a", PyValue.int 1), ("b", PyValue.int 2)]
          [("b", PyValue.int 3)]) "b"
      = pyGet (resolveParameters [("b", PyValue.int 2), ("a", PyValue.int 1)]
          [("b", PyValue.int 3)]) "b" :=
  ⟨resolveParameters_shallow_merge.1 [("a", PyValue.int 1)]
      [("a", PyValue.int 7)] "a" (by decide),
    resolveParameters_shallow_merge.2.1 [("a", PyValue.int 1), ("b", PyValue.int 2)]
      [("b", PyValue.int 2), ("a", PyValue.int 1)]
      [("b", PyValue.int 3)] [("b", PyValue.int 3)] "b"
      (by decide) (by decide) (List.Perm.swap _ _ _) (List.Perm.refl _)⟩

/-- Python `s.rfind(".")` on a list of characters: the index of the last
occurrence of the dot, `-1` when there is none. -/
def pyRfindDot : List Char → Int
  | [] => -1
  | c :: rest =>
      let r := pyRfindDot rest
      if r ≥ 0 then r + 1
      else if c = '.' then 0 else -1

/-- Python slice `s[:k]` for an integer bound: a negative `k` counts from
the end of the string, clamping at the start. -/
def pySliceTo (s : List Char) (k : Int) : List Char :=
  if k < 0 then s.take (s.length - (-k).toNat) else s.take k.toNat

/-- Python slice `s[i:]` for an integer start: a negative `i` counts from
the end of the string, clamping at the start. -/
def pySliceFrom (s : List Char) (i : Int) : List Char :=
  if i < 0 then s.drop (s.length - (-i).toNat) else s.drop i.toNat

/-- The split performed by `ComparisonPlot._get_task_class`:
`k = self.base_class.rfind(".")`, module suffix `self.base_class[:k]`,
class name `self.base_class[k + 1 :]`. -/
def getTaskClassNameParts (base_class : List Char) : List Char × List Char :=
  let k := pyRfindDot base_class
  (pySliceTo base_class k, pySliceFrom base_class (k + 1))

/-- The (module, class name) pair `_get_task_class` resolves: the module
suffix is appended to the fixed package path handed to
`importlib.import_module`, and the class is looked up by name in that
module with `getattr`; the pair is the identity of the imported class. -/
def getTaskClass (base_class : String) : String × String :=
  let p := getTaskClassNameParts base_class.data
  ("genesis.utils.pipeline.data." ++ String.mk p.1, String.mk p.2)

theorem pyRfindDot_of_not_mem {s : List Char} (h : '.' ∉ s) :
    pyRfindDot s = -1 := by
  induction s with
  | nil => rfl
  | cons c rest ih =>
      simp only [List.mem_cons] at h
      push_neg at h
      have hr := ih h.2
      simp only [pyRfindDot, hr]
      norm_num
      exact fun hc => absurd hc.symm h.1

theorem pyRfindDot_append_dot {m c : List Char} (h : '.' ∉ c) :
    pyRfindDot (m ++ '.' :: c) = (m.length : Int) := by
  induction m with
  | nil =>
      simp only [List.nil_append, pyRfindDot, pyRfindDot_of_not_mem h]
      norm_num
  | cons a m ih =>
      simp only [List.cons_append, pyRfindDot, List.append_eq, ih]
      have hnn : ((m.length : Int) ≥ 0) := by omega
      rw [if_pos hnn]
      simp only [List.length_cons]
      omega

/-- C10: `_get_task_class` splits `base_class` at the last dot — the
module suffix is the part before it and the class name the part after it —
and when `base_class` has no dot at all, `rfind` returns `-1`, so the
module suffix is `base_class` minus its final character and the class name
is the whole of `base_class`; the split is total, rejecting no input. -/
theorem getTaskClass_split_at_last_dot :
    (∀ m c : List Char, '.' ∉ c →
        getTaskClassNameParts (m ++ '.' :: c) = (m, c))
    ∧ (∀ s : List Char, '.' ∉ s →
        getTaskClassNameParts s = (s.dropLast, s)) := by
  constructor
  · intro m c h
    have h₁ : ¬ ((m.length : Int) < 0) := by omega
    have h₂ : ¬ ((m.length : Int) + 1 < 0) := by omega
    simp only [getTaskClassNameParts, pyRfindDot_append_dot h, pySliceTo,
      pySliceFrom, if_neg h₁, if_neg h₂, Prod.mk.injEq]
    constructor
    · simp only [Int.toNat_natCast]
      exact List.take_left m ('.' :: c)
    · have hcast : ((m.length : Int) + 1).toNat = (m ++ ['.']).length := by
        simp
      rw [hcast]
      have hsplit : m ++ '.' :: c = (m ++ ['.']) ++ c := by simp
      rw [hsplit]
      exact List.drop_left (m ++ ['.']) c
  · intro s h
    simp only [getTaskClassNameParts, pyRfindDot_of_not_mem h, pySliceTo,
      pySliceFrom, Prod.mk.injEq]
    norm_num
    exact (List.dropLast_eq_take s).symm

/-- Witness for `getTaskClass_split_at_last_dot`: the split of the dotted
name `objects.ObjectTwoScalesComposition` and of the dot-free name `Foo`. -/
theorem getTaskClass_split_at_last_dot_witness :
    getTaskClassNameParts ("objects.ObjectTwoScalesComposition".data)
      = ("objects".data, "ObjectTwoScalesComposition".data)
    ∧ getTaskClassNameParts ("Foo".data) = ("Fo".data, "Foo".data) :=
  ⟨getTaskClass_split_at_last_dot.1 "objects".data
      "ObjectTwoScalesComposition".data (by decide),
    getTaskClass_split_at_last_dot.2 "Foo".data (by decide)⟩

/-- Python truthiness of a value, as tested by `if plot_parameters.get(...):`
— zero, the empty string, `False`, `None` and empty containers are falsy. -/
def PyValue.isTruthy : PyValue → Bool
  | .int n => decide (n ≠ 0)
  | .str s => decide (s ≠ "")
  | .bool b => b
  | .none => false
  | .list xs => !xs.isEmpty
  | .dict xs => !xs.isEmpty

/-- Truthiness of a `d.get(k)` result: an absent key behaves like `None`. -/
def pyTruthy (o : Option PyValue) : Bool :=
  match o with
  | some v => v.isTruthy
  | Option.none => false

/-- Python `str()` of a value, as interpolated by the f-string
`f"{k}: {v}"` in `_generate_title_from_global_parameters`; container
rendering follows Python's bracketed comma-joined form (element quoting
simplified — no claim inspects rendered container text). -/
def PyValue.pyStr : PyValue → String
  | .int n => toString n
  | .str s => s
  | .bool b => if b then "True" else "False"
  | .none => "None"
  | .list xs =>
      "[" ++ String.intercalate ", " (xs.attach.map (fun x => PyValue.pyStr x.1)) ++ "]"
  | .dict xs =>
      "\x7b" ++ String.intercalate ", "
        (xs.attach.map (fun kv => kv.1.1 ++ ": " ++ PyValue.pyStr kv.1.2)) ++ "\x7d"
decreasing_by
  · have h := List.sizeOf_lt_of_mem x.2
    simp only [PyValue.list.sizeOf_spec]
    omega
  · have h := List.sizeOf_lt_of_mem kv.2
    have h2 : sizeOf kv.1.2 < sizeOf kv.1 := by
      cases kv1 : kv.1 with
      | mk a b => simp [kv1]
    simp only [PyValue.dict.sizeOf_spec]
    omega

/-- Greedy line filling of `textwrap.wrap`: pack whitespace-separated words
into lines of at most `width` characters, starting a new line when the next
word does not fit (long-word breaking omitted — no claim inspects wrapped
text). -/
def wrapFill (width : Nat) : List String → String → List String
  | [], cur => if cur = "" then [] else [cur]
  | w :: ws, cur =>
      if cur = "" then wrapFill width ws w
      else if (cur ++ " " ++ w).length ≤ width then
        wrapFill width ws (cur ++ " " ++ w)
      else cur :: wrapFill width ws w

/-- Python `textwrap.wrap(s, width=...)` on the model of `wrapFill`. -/
def textwrapWrap (width : Nat) (s : String) : List String :=
  wrapFill width ((s.splitOn " ").filter (fun w => w ≠ "")) ""

/-- Source `_generate_title_from_global_parameters`: join the
`f"{k}: {v}"` renderings of the global parameters with `", "`, wrap the
result at width 100 and join the lines with newlines. -/
def _generate_title_from_global_parameters (global_parameters : PyDict) : String :=
  String.intercalate "\n"
    (textwrapWrap 100
      (String.intercalate ", "
        (global_parameters.map (fun kv => kv.1 ++ ": " ++ PyValue.pyStr kv.2))))

/-- State of the joint axis (and of the figure title) after
`_apply_plot_parameters_to_axis` ran on a fresh axis: `xlim`/`ylim` are
`none` when the call left the limits untouched. -/
structure AxisState where
  despined : Bool
  xlim : Option (PyValue × PyValue)
  ylim : Option (PyValue × PyValue)
  title : PyValue
  suptitle : Option PyValue

/-- Source `_apply_plot_parameters_to_axis`: despine when the `despine`
parameter is truthy, set the x/y limits to `(0, value)` exactly when the
`x_max`/`y_max` parameter is truthy, and set the title to the `title`
parameter when present, defaulting to the title generated from the global
parameters; with `use_suptitle` the title goes to the figure suptitle and
the axis title is cleared. -/
def _apply_plot_parameters_to_axis (plot_parameters global_parameters : PyDict)
    (use_suptitle : Bool) : AxisState :=
  let title := (pyGet plot_parameters "title").getD
      (PyValue.str (_generate_title_from_global_parameters global_parameters))
  { despined := pyTruthy (pyGet plot_parameters "despine")
    xlim :=
      if pyTruthy (pyGet plot_parameters "x_max") then
        some (PyValue.int 0, (pyGet plot_parameters "x_max").getD PyValue.none)
      else Option.none
    ylim :=
      if pyTruthy (pyGet plot_parameters "y_max") then
        some (PyValue.int 0, (pyGet plot_parameters "y_max").getD PyValue.none)
      else Option.none
    title := if use_suptitle then PyValue.str "" else title
    suptitle := if use_suptitle then some title else Option.none }

/-- C9: the x-axis limit is set, to the interval from 0 to the parameter's
value, exactly when `x_max` maps to a truthy value, and likewise for
`y_max` and the y-axis; a falsy value (such as 0) behaves exactly like an
absent key and leaves the limits untouched. -/
theorem apply_plot_parameters_axis_limits
    (plot_parameters global_parameters : PyDict) (use_suptitle : Bool) :
    ((_apply_plot_parameters_to_axis plot_parameters global_parameters
        use_suptitle).xlim = Option.none
      ↔ pyTruthy (pyGet plot_parameters "x_max") = false)
    ∧ (∀ v : PyValue, pyGet plot_parameters "x_max" = some v →
        v.isTruthy = true →
        (_apply_plot_parameters_to_axis plot_parameters global_parameters
          use_suptitle).xlim = some (PyValue.int 0, v))
    ∧ ((_apply_plot_parameters_to_axis plot_parameters global_parameters
        use_suptitle).ylim = Option.none
      ↔ pyTruthy (pyGet plot_parameters "y_max") = false)
    ∧ (∀ v : PyValue, pyGet plot_parameters "y_max" = some v →
        v.isTruthy = true →
        (_apply_plot_parameters_to_axis plot_parameters global_parameters
          use_suptitle).ylim = some (PyValue.int 0, v)) := by
  refine ⟨?_, ?_, ?_, ?_⟩
  · simp only [_apply_plot_parameters_to_axis]
    by_cases h : pyTruthy (pyGet plot_parameters "x_max") <;> simp [h]
  · intro v hv ht
    simp [_apply_plot_parameters_to_axis, hv, pyTruthy, ht]
  · simp only [_apply_plot_parameters_to_axis]
    by_cases h : pyTruthy (pyGet plot_parameters "y_max") <;> simp [h]
  · intro v hv ht
    simp [_apply_plot_parameters_to_axis, hv, pyTruthy, ht]

/-- Witness for `apply_plot_parameters_axis_limits`: with `x_max` mapped to
5 the x-limit becomes `(0, 5)`, and with `y_max` mapped to the falsy 0 the
y-limit stays untouched. -/
theorem apply_plot_parameters_axis_limits_witness :
    (_apply_plot_parameters_to_axis
        [("x_max", PyValue.int 5), ("y_max", PyValue.int 0)] [] false).xlim
      = some (PyValue.int 0, PyValue.int 5)
    ∧ (_apply_plot_parameters_to_axis
        [("x_max", PyValue.int 5), ("y_max", PyValue.int 0)] [] false).ylim
      = Option.none :=
  ⟨(apply_plot_parameters_axis_limits
        [("x_max", PyValue.int 5), ("y_max", PyValue.int 0)] [] false).2.1
      (PyValue.int 5) rfl rfl,
    (apply_plot_parameters_axis_limits
        [("x_max", PyValue.int 5), ("y_max", PyValue.int 0)] [] false).2.2.1.mpr rfl⟩

/-- Abstract handle for an opened xarray data array handed to the plot
routine; `task_name` is the label assigned by `run` before plotting. -/
structure DataArray where
  id : Nat
  task_name : Option String

/-- One `da.plot.contour(ax=ax_joint, cmap=cmap)` call together with the
legend label set on its third collection. -/
structure ContourSet where
  cmap : String
  label : String
  da : DataArray

/-- One marginal-distribution line drawn on a marginal axis. -/
structure MarginalPair where
  label : String
  da : DataArray

/-- Interpret a parameter value as the dict it must be for `**fig_params`
style use; a non-dict value would raise in Python at the point of use. -/
def PyValue.asDict : PyValue → PyDict
  | .dict d => d
  | _ => []

/-- Python `key in annotations` for a string key against the
`annotations` parameter value: list membership for a list, key membership
for a dict, false otherwise. -/
def pyContainsKey (v : PyValue) (key : String) : Bool :=
  match v with
  | .list xs => xs.any (fun x =>
      match x with
      | .str s => s = key
      | _ => false)
  | .dict xs => (xs.map Prod.fst).contains key
  | _ => false

/-- Python `v[1]` on a figsize-like value: `none` models the `IndexError`
or `TypeError` Python would raise when the element is missing. -/
def pyIndexOne : PyValue → Option PyValue
  | .list xs => xs.get? 1
  | _ => Option.none

/-- Description of the matplotlib figure built by `_scales_dist_2d`: which
canvas was created and how, which annotations were drawn, the contour sets
and marginal lines drawn from the datasets, the axis state left by
`_apply_plot_parameters_to_axis`, and the legend location. -/
structure Figure where
  usedPlotGrid : Bool
  plotGridHeight : Option PyValue
  subplotsParams : Option PyDict
  fpReference : Option PyDict
  unitLine : Bool
  warningsIssued : List String
  contours : List ContourSet
  marginalX : List MarginalPair
  marginalY : List MarginalPair
  axJoint : AxisState
  legendLoc : PyValue

/-- The fixed colormap list of `_scales_dist_2d`. -/
def cmapList : List String := ["Blues", "Reds", "Greens", "Oranges"]

/-- Source `_scales_dist_2d`: build a `PlotGrid` (passing the second
`figsize` entry as height) when marginal distributions are requested, else
`plt.subplots(**fig_params)`; draw the requested annotations (warning
instead of drawing the unit line when matplotlib lacks `axline`); draw one
contour set per dataset zipped against the four colormaps, plus marginal
sums when requested; apply the plot parameters to the joint axis (using
the suptitle when marginals are present) and place the legend. -/
def _scales_dist_2d (datasets : List (String × DataArray))
    (plot_parameters global_parameters : PyDict)
    (matplotlibHasAxline : Bool) : Figure :=
  let add_marginal_distributions :=
    pyTruthy (pyGet plot_parameters "add_marginal_distributions")
  let fig_params :=
    ((pyGet plot_parameters "fig_params").getD (PyValue.dict [])).asDict
  let annotationsValue :=
    (pyGet plot_parameters "annotations").getD (PyValue.list [])
  let drawn := List.zipWith
    (fun cmap td => ContourSet.mk cmap td.1 td.2) cmapList datasets
  { usedPlotGrid := add_marginal_distributions
    plotGridHeight :=
      if add_marginal_distributions then
        (pyGet fig_params "figsize").bind pyIndexOne
      else Option.none
    subplotsParams :=
      if add_marginal_distributions then Option.none else some fig_params
    fpReference :=
      if pyContainsKey annotationsValue "filamentarity_planarity_reference" then
        some (match annotationsValue with
          | PyValue.dict d =>
              (match pyGet d "filamentarity_planarity_reference" with
                | some (PyValue.dict kw) => kw
                | _ => [])
          | _ => [])
      else Option.none
    unitLine := pyContainsKey annotationsValue "unit_line" && matplotlibHasAxline
    warningsIssued :=
      if pyContainsKey annotationsValue "unit_line" && !matplotlibHasAxline then
        ["Upgrade to matplotlib >= 3.3.0 to draw unit line"]
      else []
    contours := drawn
    marginalX :=
      if add_marginal_distributions then
        drawn.map (fun c => MarginalPair.mk c.label c.da)
      else []
    marginalY :=
      if add_marginal_distributions then
        drawn.map (fun c => MarginalPair.mk c.label c.da)
      else []
    axJoint := _apply_plot_parameters_to_axis plot_parameters
      global_parameters add_marginal_distributions
    legendLoc := (pyGet plot_parameters "legend_loc").getD (PyValue.str "best") }

/-- C7: the rendering routine consults the global parameters only for the
default title — whenever the plot parameters carry an explicit truthy
`title` entry, the rendered figure is identical for any two global
parameter sets, and the title shown (the suptitle when marginal
distributions are on, the axis title otherwise) is the override. -/
theorem scales_dist_global_parameters_only_title
    (datasets : List (String × DataArray)) (plot_parameters gp₁ gp₂ : PyDict)
    (matplotlibHasAxline : Bool) (v : PyValue)
    (hv : pyGet plot_parameters "title" = some v) (_ht : v.isTruthy = true) :
    _scales_dist_2d datasets plot_parameters gp₁ matplotlibHasAxline
      = _scales_dist_2d datasets plot_parameters gp₂ matplotlibHasAxline
    ∧ (if (_scales_dist_2d datasets plot_parameters gp₁
          matplotlibHasAxline).usedPlotGrid then
        (_scales_dist_2d datasets plot_parameters gp₁
          matplotlibHasAxline).axJoint.suptitle = some v
      else
        (_scales_dist_2d datasets plot_parameters gp₁
          matplotlibHasAxline).axJoint.title = v) := by
  constructor
  · simp [_scales_dist_2d, _apply_plot_parameters_to_axis, hv]
  · by_cases hm : pyTruthy (pyGet plot_parameters "add_marginal_distributions")
      <;> simp [_scales_dist_2d, _apply_plot_parameters_to_axis, hv, hm]

/-- Witness for `scales_dist_global_parameters_only_title` at concrete
inputs: two different global parameter sets render identically under a
title override. -/
theorem scales_dist_global_parameters_only_title_witness :
    _scales_dist_2d [("v1", DataArray.mk 0 (some "v1"))]
        [("title", PyValue.str "t")] [("bins", PyValue.int 10)] true
      = _scales_dist_2d [("v1", DataArray.mk 0 (some "v1"))]
        [("title", PyValue.str "t")] [("bins", PyValue.int 20)] true :=
  (scales_dist_global_parameters_only_title
    [("v1", DataArray.mk 0 (some "v1"))] [("title", PyValue.str "t")]
    [("bins", PyValue.int 10)] [("bins", PyValue.int 20)] true
    (PyValue.str "t") rfl rfl).1

/-- C8: only the first four datasets (in mapping iteration order) are
plotted — the i-th drawn contour set uses the colormap at position i of
the fixed list Blues, Reds, Greens, Oranges and carries the i-th label —
and every entry past the fourth is ignored without any error or warning:
the whole rendered figure coincides with the one rendered from just the
first four entries. -/
theorem scales_dist_first_four_datasets
    (datasets : List (String × DataArray)) (plot_parameters gp : PyDict)
    (matplotlibHasAxline : Bool) :
    (_scales_dist_2d datasets plot_parameters gp
        matplotlibHasAxline).contours.length = min 4 datasets.length
    ∧ (∀ i : Nat, ∀ td : String × DataArray, datasets.get? i = some td →
        i < 4 →
        (_scales_dist_2d datasets plot_parameters gp
            matplotlibHasAxline).contours.get? i
          = some (ContourSet.mk (cmapList.getD i "") td.1 td.2))
    ∧ (∀ i : Nat, 4 ≤ i →
        (_scales_dist_2d datasets plot_parameters gp
            matplotlibHasAxline).contours.get? i = Option.none)
    ∧ _scales_dist_2d datasets plot_parameters gp matplotlibHasAxline
      = _scales_dist_2d (datasets.take 4) plot_parameters gp
          matplotlibHasAxline := by
  have hzip : List.zipWith
      (fun cmap td => ContourSet.mk cmap td.1 td.2) cmapList datasets
      = List.zipWith
        (fun cmap td => ContourSet.mk cmap td.1 td.2) cmapList
        (datasets.take 4) := by
    have hlen : (List.zipWith
        (fun cmap td => ContourSet.mk cmap td.1 td.2) cmapList
        datasets).length ≤ 4 := by
      rw [List.length_zipWith]
      simp [cmapList]
    calc List.zipWith (fun cmap td => ContourSet.mk cmap td.1 td.2)
          cmapList datasets
        = (List.zipWith (fun cmap td => ContourSet.mk cmap td.1 td.2)
            cmapList datasets).take 4 := (List.take_of_length_le hlen).symm
      _ = List.zipWith (fun cmap td => ContourSet.mk cmap td.1 td.2)
            (cmapList.take 4) (datasets.take 4) := List.take_zipWith
      _ = List.zipWith (fun cmap td => ContourSet.mk cmap td.1 td.2)
            cmapList (datasets.take 4) := by rfl
  refine ⟨?_, ?_, ?_, ?_⟩
  · simp [_scales_dist_2d, List.length_zipWith, cmapList]
  · intro i td htd hi
    have hc : cmapList.get? i = some (cmapList.getD i "") := by
      interval_cases i <;> rfl
    simp only [_scales_dist_2d]
    rw [List.get?_zipWith', hc, htd]
    rfl
  · intro i hi
    have hc : cmapList.get? i = Option.none := by
      rw [List.get?_eq_none]
      simpa [cmapList] using hi
    simp only [_scales_dist_2d]
    rw [List.get?_zipWith', hc]
    rfl
  · simp only [_scales_dist_2d, hzip]

/-- Witness for `scales_dist_first_four_datasets` at a concrete five-entry
mapping: the second entry is drawn with Reds and the fifth is dropped. -/
theorem scales_dist_first_four_datasets_witness :
    (_scales_dist_2d
        [("a", DataArray.mk 0 Option.none), ("b", DataArray.mk 1 Option.none),
          ("c", DataArray.mk 2 Option.none), ("d", DataArray.mk 3 Option.none),
          ("e", DataArray.mk 4 Option.none)] [] [] true).contours.get? 1
      = some (ContourSet.mk "Reds" "b" (DataArray.mk 1 Option.none))
    ∧ (_scales_dist_2d
        [("a", DataArray.mk 0 Option.none), ("b", DataArray.mk 1 Option.none),
          ("c", DataArray.mk 2 Option.none), ("d", DataArray.mk 3 Option.none),
          ("e", DataArray.mk 4 Option.none)] [] [] true).contours.get? 4
      = Option.none :=
  ⟨(scales_dist_first_four_datasets
      [("a", DataArray.mk 0 Option.none), ("b", DataArray.mk 1 Option.none),
        ("c", DataArray.mk 2 Option.none), ("d", DataArray.mk 3 Option.none),
        ("e", DataArray.mk 4 Option.none)] [] [] true).2.1 1
      ("b", DataArray.mk 1 Option.none) rfl (by omega),
    (scales_dist_first_four_datasets
      [("a", DataArray.mk 0 Option.none), ("b", DataArray.mk 1 Option.none),
        ("c", DataArray.mk 2 Option.none), ("d", DataArray.mk 3 Option.none),
        ("e", DataArray.mk 4 Option.none)] [] [] true).2.2.1 4 (by omega)⟩

/-- The luigi task `ComparisonPlot` and its five declared parameters;
`parameter_sets` keeps the dict's label-to-variant-parameters bindings in
iteration order. -/
structure ComparisonPlot where
  base_class : String
  parameter_sets : List (String × PyDict)
  global_parameters : PyDict
  plot_parameters : PyDict
  name : String

/-- A dependency task instance as constructed by `requires`: luigi task
identity is the task class together with its fully resolved parameters. -/
structure TaskNode where
  taskClass : String × String
  params : PyDict

/-- Source `ComparisonPlot.requires`: resolve the task class once, then
for each `(task_name, parameter_set)` binding construct
`TaskClass(**task_parameters)` from the shallow merge of the global
parameters with the variant's parameter set, keyed by the variant label. -/
def ComparisonPlot.requires (t : ComparisonPlot) : List (String × TaskNode) :=
  t.parameter_sets.map (fun kv =>
    (kv.1, TaskNode.mk (getTaskClass t.base_class)
      (resolveParameters t.global_parameters kv.2)))

/-- Source `ComparisonPlot.output`: the path of the
`luigi.LocalTarget(f"{self.name}.png")` artifact. -/
def ComparisonPlot.output (t : ComparisonPlot) : String := t.name ++ ".png"

/-- C5: `requires` is a pure function of the node's `base_class`,
`parameter_sets` and `global_parameters` alone — two nodes agreeing on
those three fields (whatever their `plot_parameters` and `name`) declare
equal dependency maps, with the same labels bound to task nodes of
identical identity, and the declaration itself performs no work (it is a
total function with no effect channel). -/
theorem requires_pure_function_of_parameters (t₁ t₂ : ComparisonPlot)
    (hb : t₁.base_class = t₂.base_class)
    (hp : t₁.parameter_sets = t₂.parameter_sets)
    (hg : t₁.global_parameters = t₂.global_parameters) :
    ComparisonPlot.requires t₁ = ComparisonPlot.requires t₂
    ∧ (ComparisonPlot.requires t₁).map Prod.fst
      = t₁.parameter_sets.map Prod.fst := by
  constructor
  · obtain ⟨b₁, p₁, g₁, pp₁, n₁⟩ := t₁
    obtain ⟨b₂, p₂, g₂, pp₂, n₂⟩ := t₂
    simp only at hb hp hg
    subst hb; subst hp; subst hg
    rfl
  · simp [ComparisonPlot.requires]

/-- Witness for `requires_pure_function_of_parameters`: two nodes that
differ in `plot_parameters` and `name` but share the other three fields
declare the same dependency map. -/
theorem requires_pure_function_of_parameters_witness :
    ComparisonPlot.requires
      (ComparisonPlot.mk "objects.ObjectTwoScalesComposition"
        [("v1", [("alpha", PyValue.int 1)])] [("bins", PyValue.int 10)]
        [] "cmp1")
    = ComparisonPlot.requires
      (ComparisonPlot.mk "objects.ObjectTwoScalesComposition"
        [("v1", [("alpha", PyValue.int 1)])] [("bins", PyValue.int 10)]
        [("despine", PyValue.bool true)] "other") :=
  (requires_pure_function_of_parameters
    (ComparisonPlot.mk "objects.ObjectTwoScalesComposition"
      [("v1", [("alpha", PyValue.int 1)])] [("bins", PyValue.int 10)]
      [] "cmp1")
    (ComparisonPlot.mk "objects.ObjectTwoScalesComposition"
      [("v1", [("alpha", PyValue.int 1)])] [("bins", PyValue.int 10)]
      [("despine", PyValue.bool true)] "other") rfl rfl rfl).1

/-- Errors surfaced by `ComparisonPlot.run` and by the scheduler driving
it. -/
inductive RunError where
  /-- Python `raise NotImplementedError(TaskClass)` — the error `run`
  actually raises when the resolved task class has no plot routine. -/
  | notImplementedError (taskClass : String × String)
  /-- Modelled from the spec: the `UnsupportedTaskTypeError` the spec names
  for dispatch failure; nothing under `src/` defines or raises an error of
  this name. -/
  | unsupportedTaskTypeError (taskClass : String × String)
  /-- Opening an absent upstream artifact raised (the spec's
  `NotFoundError`), carrying the failing label. -/
  | notFoundError (label : String)
  /-- Modelled from the spec: a recursive materialize call on the labelled
  dependency failed. -/
  | dependencyFailedError (label : String)
  /-- The plot routine raised while rendering the figure. -/
  | renderError
  /-- Python `plt.savefig` raised partway through writing the output. -/
  | saveError
deriving DecidableEq

/-- The registered comparison task type: the class
`ObjectTwoScalesComposition` that the source brings in from
`genesis.utils.pipeline.data.objects` via its `..data.objects`
relative module reference. -/
def ObjectTwoScalesComposition : String × String :=
  ("genesis.utils.pipeline.data.objects", "ObjectTwoScalesComposition")

/-- Dispatch performed inside `ComparisonPlot.run`: the single-branch
registry `if TaskClass == ObjectTwoScalesComposition: plot_function =
_scales_dist_2d else: raise NotImplementedError(TaskClass)`. -/
def selectPlotFunction (taskClass : String × String) :
    Except RunError
      (List (String × DataArray) → PyDict → PyDict → Bool → Figure) :=
  if taskClass = ObjectTwoScalesComposition then Except.ok _scales_dist_2d
  else Except.error (RunError.notImplementedError taskClass)

/-- State of one path of the artifact store: no file, a half-written file
left by an interrupted write, or a completely written file. -/
inductive FileState where
  | absent
  | halfWritten
  | complete
deriving DecidableEq

/-- Existence check of a `luigi.LocalTarget`: any file at the path counts,
a half-written one included. -/
def FileState.existsOnDisk : FileState → Bool
  | .absent => false
  | _ => true

/-- Failure switches for the external collaborators `run` interacts with:
which dependency labels fail to open (or to materialize), whether the plot
routine raises, and whether `plt.savefig` raises partway through writing
the output file. -/
structure RunEnv where
  openFailures : List String
  depFailures : List String
  renderFails : Bool
  saveFails : Bool

/-- Source `ComparisonPlot.run` over an explicit artifact store: resolve
the task class and dispatch (raising `NotImplementedError` for an
unregistered class), open every dependency input in declaration order,
render the figure, and write it with `plt.savefig(self.output().fn, ...)`.
The write goes directly to the final target path — there is no
temporary-file-and-rename step — so a `savefig` failure partway through
leaves a half-written file at the target, while any earlier failure leaves
the store untouched. -/
def ComparisonPlot.run (t : ComparisonPlot) (env : RunEnv)
    (fs : String → FileState) :
    Except RunError Unit × (String → FileState) :=
  match selectPlotFunction (getTaskClass t.base_class) with
  | Except.error e => (Except.error e, fs)
  | Except.ok _plot_function =>
      match t.parameter_sets.find? (fun kv => env.openFailures.contains kv.1) with
      | some kv => (Except.error (RunError.notFoundError kv.1), fs)
      | Option.none =>
          if env.renderFails then (Except.error RunError.renderError, fs)
          else if env.saveFails then
            (Except.error RunError.saveError,
              fun p => if p = ComparisonPlot.output t then
                FileState.halfWritten else fs p)
          else
            (Except.ok (),
              fun p => if p = ComparisonPlot.output t then
                FileState.complete else fs p)

/-- Result of a `materialize` call: the outcome, the artifact store
afterwards, and whether the root node's `run` was invoked. -/
structure MaterializeResult where
  result : Except RunError Unit
  fs : String → FileState
  runInvoked : Bool

/-- Modelled from the spec: the Scheduler/Runner contract (provided by the
luigi scheduler driving `ComparisonPlot`; no scheduler code lives under
`src/`) — `materialize(root)` returns immediately when `output().exists()`
(step 1, the caching short-circuit), otherwise materializes every declared
dependency, aborting on the first failing one, and only then invokes the
root's `run` against the store. -/
def materialize (t : ComparisonPlot) (env : RunEnv)
    (fs : String → FileState) : MaterializeResult :=
  if FileState.existsOnDisk (fs (ComparisonPlot.output t)) then
    MaterializeResult.mk (Except.ok ()) fs false
  else
    match t.parameter_sets.find? (fun kv => env.depFailures.contains kv.1) with
    | some kv =>
        MaterializeResult.mk
          (Except.error (RunError.dependencyFailedError kv.1)) fs false
    | Option.none =>
        let r := ComparisonPlot.run t env fs
        MaterializeResult.mk r.1 r.2 true

/-- Concrete `ComparisonPlot` node used by the concrete evaluations below,
matching the spec's end-to-end scenario. -/
def exampleTask : ComparisonPlot :=
  ComparisonPlot.mk "objects.ObjectTwoScalesComposition"
    [("v1", [("alpha", PyValue.int 1)]), ("v2", [("alpha", PyValue.int 2)])]
    [("bins", PyValue.int 10)] [] "cmp1"

/-- Environment in which every external collaborator succeeds. -/
def okEnv : RunEnv := RunEnv.mk [] [] false false

/-- Environment in which `plt.savefig` raises partway through writing. -/
def saveFailEnv : RunEnv := RunEnv.mk [] [] false true

/-- Artifact store with no file anywhere. -/
def emptyStore : String → FileState := fun _ => FileState.absent

/-- C1: for a node whose artifact already exists, `materialize` never
invokes `run` — whatever the node's declared dependencies and parameters
are and whatever the failure environment — leaving the store untouched and
returning successfully (the caching short-circuit). -/
theorem materialize_cache_short_circuit (t : ComparisonPlot) (env : RunEnv)
    (fs : String → FileState)
    (h : FileState.existsOnDisk (fs (ComparisonPlot.output t)) = true) :
    (materialize t env fs).runInvoked = false
    ∧ (materialize t env fs).fs = fs
    ∧ (materialize t env fs).result = Except.ok () := by
  simp [materialize, h]

/-- Witness for `materialize_cache_short_circuit`: the example node with
its artifact present is not re-run even under an all-failing environment. -/
theorem materialize_cache_short_circuit_witness :
    FileState.existsOnDisk
        ((fun _ => FileState.complete) (ComparisonPlot.output exampleTask))
      = true
    ∧ (materialize exampleTask (RunEnv.mk ["v1"] ["v1"] true true)
        (fun _ => FileState.complete)).runInvoked = false :=
  ⟨rfl,
    (materialize_cache_short_circuit exampleTask
      (RunEnv.mk ["v1"] ["v1"] true true) (fun _ => FileState.complete)
      rfl).1⟩

set_option maxRecDepth 8192 in
/-- C2 counterexample: a `run` that raises partway through — here inside
`plt.savefig`, which writes straight to the final target path — leaves a
half-written file at the target, so `output().exists()` is `true` after
the failure, contradicting the claim that a failing `run` always leaves
the target absent. -/
theorem run_failure_leaves_partial_artifact :
    (ComparisonPlot.run exampleTask saveFailEnv emptyStore).1
      = Except.error RunError.saveError
    ∧ FileState.existsOnDisk
        ((ComparisonPlot.run exampleTask saveFailEnv emptyStore).2
          (ComparisonPlot.output exampleTask)) = true := by
  constructor <;> rfl

/-- C2 amended: starting from an absent target, a `run` that fails
anywhere before the final `savefig` write leaves the target absent, and
the target is completely written exactly when `run` returns without
error; only a failure inside `savefig` itself can leave a (half-written)
file behind, because the code writes directly to the final path. -/
theorem run_all_or_nothing_except_save (t : ComparisonPlot) (env : RunEnv)
    (fs : String → FileState)
    (h0 : fs (ComparisonPlot.output t) = FileState.absent) :
    ((ComparisonPlot.run t env fs).1 ≠ Except.ok () → env.saveFails = false →
        (ComparisonPlot.run t env fs).2 (ComparisonPlot.output t)
          = FileState.absent)
    ∧ ((ComparisonPlot.run t env fs).2 (ComparisonPlot.output t)
          = FileState.complete
        ↔ (ComparisonPlot.run t env fs).1 = Except.ok ()) := by
  unfold ComparisonPlot.run
  cases hsel : selectPlotFunction (getTaskClass t.base_class) with
  | error e =>
      refine ⟨fun _ _ => h0, ?_⟩
      simp [h0]
  | ok pf =>
      cases hfind : t.parameter_sets.find?
          (fun kv => env.openFailures.contains kv.1) with
      | some kv =>
          refine ⟨fun _ _ => h0, ?_⟩
          simp [h0]
      | none =>
          by_cases hr : env.renderFails
          · refine ⟨fun _ _ => by simp [hr, h0], ?_⟩
            simp [hr, h0]
          · by_cases hs : env.saveFails
            · refine ⟨fun _ hfalse => by rw [hfalse] at hs; exact absurd hs (by simp), ?_⟩
              simp [hr, hs]
            · refine ⟨fun hne _ => absurd (by simp [hr, hs]) hne, ?_⟩
              simp [hr, hs]

set_option maxRecDepth 8192 in
/-- Witness for `run_all_or_nothing_except_save`: from an absent target, a
render failure leaves the target absent, applying the theorem at a
concrete node and environment. -/
theorem run_all_or_nothing_except_save_witness :
    emptyStore (ComparisonPlot.output exampleTask) = FileState.absent
    ∧ (ComparisonPlot.run exampleTask (RunEnv.mk [] [] true false)
        emptyStore).2 (ComparisonPlot.output exampleTask)
      = FileState.absent :=
  ⟨rfl,
    (run_all_or_nothing_except_save exampleTask (RunEnv.mk [] [] true false)
      emptyStore rfl).1 (by intro h; exact Except.noConfusion h) rfl⟩

/-- C3 counterexample: for a task class with no registered plot routine the
dispatch in `run` raises Python's builtin `NotImplementedError` carrying
the class — it does not raise an error called `UnsupportedTaskTypeError`,
which nothing in the code defines. -/
theorem select_plot_function_error_is_notImplemented :
    selectPlotFunction ("genesis.utils.pipeline.data.objects", "Foo")
      = Except.error (RunError.notImplementedError
        ("genesis.utils.pipeline.data.objects", "Foo"))
    ∧ selectPlotFunction ("genesis.utils.pipeline.data.objects", "Foo")
      ≠ Except.error (RunError.unsupportedTaskTypeError
        ("genesis.utils.pipeline.data.objects", "Foo")) := by
  refine ⟨rfl, ?_⟩
  intro h
  rw [show selectPlotFunction ("genesis.utils.pipeline.data.objects", "Foo")
      = Except.error (RunError.notImplementedError
        ("genesis.utils.pipeline.data.objects", "Foo")) from rfl] at h
  simp at h

/-- C3 amended: dispatch against the closed one-entry registry fails for
every unregistered task class with a `NotImplementedError` naming that
class — never a silent default — and deterministically returns the
`_scales_dist_2d` routine for the registered class. -/
theorem select_plot_function_closed_registry (taskClass : String × String)
    (h : taskClass ≠ ObjectTwoScalesComposition) :
    selectPlotFunction taskClass
      = Except.error (RunError.notImplementedError taskClass)
    ∧ selectPlotFunction ObjectTwoScalesComposition
      = Except.ok _scales_dist_2d := by
  constructor
  · simp [selectPlotFunction, h]
  · simp [selectPlotFunction]

/-- Witness for `select_plot_function_closed_registry` at a concrete
unregistered class. -/
theorem select_plot_function_closed_registry_witness :
    selectPlotFunction ("genesis.utils.pipeline.data.extraction", "ExtractField")
      = Except.error (RunError.notImplementedError
        ("genesis.utils.pipeline.data.extraction", "ExtractField"))
    ∧ selectPlotFunction ObjectTwoScalesComposition
      = Except.ok _scales_dist_2d :=
  select_plot_function_closed_registry
    ("genesis.utils.pipeline.data.extraction", "ExtractField") (by decide)

/-- C6: the artifact of a `ComparisonPlot` node named `n` is the single
file at exactly `n` plus the extension `.png`, and a successful
`materialize` touches no other path and leaves that one path existing —
exactly one artifact. -/
theorem materialize_single_named_artifact (t : ComparisonPlot)
    (env : RunEnv) (fs : String → FileState) :
    ComparisonPlot.output t = t.name ++ ".png"
    ∧ ((materialize t env fs).result = Except.ok () →
        (∀ p : String, p ≠ ComparisonPlot.output t →
          (materialize t env fs).fs p = fs p)
        ∧ FileState.existsOnDisk
            ((materialize t env fs).fs (ComparisonPlot.output t)) = true) := by
  refine ⟨rfl, ?_⟩
  unfold materialize ComparisonPlot.run
  by_cases hhit : FileState.existsOnDisk (fs (ComparisonPlot.output t)) = true
  · rw [if_pos hhit]
    intro _
    exact ⟨fun p _ => rfl, hhit⟩
  · rw [if_neg hhit]
    cases List.find? (fun kv => env.depFailures.contains kv.1)
        t.parameter_sets with
    | some kv => intro hok; simp at hok
    | none =>
        cases selectPlotFunction (getTaskClass t.base_class) with
        | error e => intro hok; simp at hok
        | ok pf =>
            cases List.find? (fun kv => env.openFailures.contains kv.1)
                t.parameter_sets with
            | some kv => intro hok; simp at hok
            | none =>
                by_cases hr : env.renderFails
                · rw [if_pos hr]; intro hok; simp at hok
                · rw [if_neg hr]
                  by_cases hs : env.saveFails
                  · rw [if_pos hs]; intro hok; simp at hok
                  · rw [if_neg hs]
                    intro _
                    refine ⟨fun p hp => ?_, ?_⟩
                    · simp [hp]
                    · simp [FileState.existsOnDisk]

set_option maxRecDepth 8192 in
set_option maxHeartbeats 1000000 in
/-- Witness for `materialize_single_named_artifact`: a successful fresh
materialize of the example node leaves an existing artifact at
`cmp1.png` and does not touch another path. -/
theorem materialize_single_named_artifact_witness :
    ComparisonPlot.output exampleTask = "cmp1.png"
    ∧ FileState.existsOnDisk
        ((materialize exampleTask okEnv emptyStore).fs "cmp1.png") = true
    ∧ (materialize exampleTask okEnv emptyStore).fs "other.png"
      = emptyStore "other.png" :=
  ⟨rfl,
    ((materialize_single_named_artifact exampleTask okEnv emptyStore).2
      rfl).2,
    ((materialize_single_named_artifact exampleTask okEnv emptyStore).2
      rfl).1 "other.png" (by decide)⟩

end Genesis
